import Mathlib

/-!
Verification of the rotating, asynchronous logging facility of the
mochow-sdk-go repository (package `util/log`, file `logger.go`).

The Go code is shallowly embedded:
* pure computations (`logging` record assembly, the rotation decision of
  `buildFileWriter` / `buildFileWriterBySize`) become Lean functions;
* the filesystem is an explicit value (`FileSys`): a size oracle standing
  for `getFileInfo` plus success flags for `os.Create` / `os.OpenFile`;
* the stateful parts (the writers map, open file handles, the bounded
  channel, the `done` signal and the backend writer goroutine) become a
  `Config` state record with a step function per operation;
* the unbounded probe loop of `buildFileWriterBySize` takes explicit fuel
  and returns an `Option`.

Helper functions `getSizeString` and `getNextFileName` are declared in a
file of the repository that is not part of the sources at hand; they are
modelled from the specification (see their doc comments).
-/

namespace GoLog

/-- Severity levels (source constants `DEBUG .. PANIC`, `Level uint8`).
Only these six values are ever produced by the logging entry points. -/
inductive Level where
  | DEBUG
  | INFO
  | WARN
  | ERROR
  | FATAL
  | PANIC
  deriving DecidableEq

/-- Numeric value of a level, as in the Go `uint8` constants. -/
def Level.toNat : Level → Nat
  | .DEBUG => 0
  | .INFO => 1
  | .WARN => 2
  | .ERROR => 3
  | .FATAL => 4
  | .PANIC => 5

/-- Source `gLevelString`. -/
def gLevelString : Level → String
  | .DEBUG => "DEBUG"
  | .INFO => "INFO"
  | .WARN => "WARN"
  | .ERROR => "ERROR"
  | .FATAL => "FATAL"
  | .PANIC => "PANIC"

/-- Handler bit flags (source: `None = 0`, `Stdout = 1`, `Stderr = 1<<1`,
`File = 1<<2`); the `handler` field is the bitset, modelled as `Nat`. -/
def HNone : Nat := 0

def HStdout : Nat := 1

def HStderr : Nat := 2

def HFile : Nat := 4

/-- A wall-clock timestamp broken into the calendar fields the formatting
layouts of the source use (`time.Time` values are only ever formatted). -/
structure DateTime where
  year : Nat
  month : Nat
  day : Nat
  hour : Nat
  minute : Nat
  second : Nat
  micro : Nat
  deriving DecidableEq

/-- Left-pad the decimal rendering of `n` with zeros to width `w`
(Go layouts `2006`, `01`, `15`, `000000` are zero-padded). -/
def padNum (w n : Nat) : String :=
  let s := toString n
  if s.length < w then String.mk (List.replicate (w - s.length) '0') ++ s else s

/-- The `2006-01-02` part shared by every calendar layout. -/
def fmtDate (t : DateTime) : String :=
  padNum 4 t.year ++ "-" ++ padNum 2 t.month ++ "-" ++ padNum 2 t.day

/-- Layout `2006-01-02 15:04:05.000000` (token `ltime`). -/
def fmtLTimeOf (t : DateTime) : String :=
  fmtDate t ++ " " ++ padNum 2 t.hour ++ ":" ++ padNum 2 t.minute ++ ":" ++
    padNum 2 t.second ++ "." ++ padNum 6 t.micro

/-- Layout `2006-01-02 15:04:05` (token `time`). -/
def fmtTimeOf (t : DateTime) : String :=
  fmtDate t ++ " " ++ padNum 2 t.hour ++ ":" ++ padNum 2 t.minute ++ ":" ++ padNum 2 t.second

/-- Layout `2006-01-02.log` (strategy `RotateDay`). -/
def dayLogName (t : DateTime) : String := fmtDate t ++ ".log"

/-- Layout `2006-01-02_15.log` (strategy `RotateHour`). -/
def hourLogName (t : DateTime) : String :=
  fmtDate t ++ "_" ++ padNum 2 t.hour ++ ".log"

/-- Layout `2006-01-02_15-04.log` (strategy `RotateMinute`). -/
def minuteLogName (t : DateTime) : String :=
  fmtDate t ++ "_" ++ padNum 2 t.hour ++ "-" ++ padNum 2 t.minute ++ ".log"

/-- The `rotateArgs` carried by a queued record: either the record size
(`int64`) or the logging time (source `writerArgs.rotateArgs`). -/
inductive RotateArgs where
  | size (n : Int)
  | time (t : DateTime)
  deriving DecidableEq

/-- The zero `time.Time` produced by a failed type assertion. -/
def zeroTime : DateTime := ⟨1, 1, 1, 0, 0, 0, 0⟩

/-- Go `recordSize, _ := args.(int64)`: 0 when the assertion fails. -/
def RotateArgs.sizeOr0 : RotateArgs → Int
  | .size n => n
  | .time _ => 0

/-- Go `recordTime, _ := args.(time.Time)`: zero time when it fails. -/
def RotateArgs.timeOrZero : RotateArgs → DateTime
  | .time t => t
  | .size _ => zeroTime

/-- Caller location as already post-processed by lines 144-151 of the
source (base file name, line, trimmed function name); the raw
`runtime.Caller` probe is outside the embedding. -/
structure Caller where
  file : String
  line : Nat
  funcname : String
  deriving DecidableEq

/-- A live write destination: a console singleton or a file handle the
logger opened (identified by an allocation id plus the path it was
opened on). -/
inductive Sink where
  | stdoutS
  | stderrS
  | fileH (id : Nat) (path : String)
  deriving DecidableEq

/-- The ambient filesystem: `stat` gives the on-disk size of an existing
file (the `(size, exist)` pair of `getFileInfo`, as an `Option`);
`createOk` / `openOk` say whether `os.Create` / `os.OpenFile` succeed
on a path. -/
structure FileSys where
  stat : String → Option Int
  createOk : String → Bool
  openOk : String → Bool

/-- Handle bookkeeping: ids of file handles the logger opened and has not
closed, the next fresh id, and the filesystem contents. -/
structure World where
  openH : List Nat
  nextId : Nat
  fs : FileSys

/-- Source `logger` struct.  The three writer slots are the entries of the
`writers` map under keys `Stdout`, `Stderr`, `File`; the channel and the
`done` signal live in `Config` below. -/
structure Logger where
  wStdout : Option Sink
  wStderr : Option Sink
  wFile : Option Sink
  logFormat : List String
  levelThreshold : Level
  handler : Nat
  logDir : String
  logFile : String
  rotateType : Nat
  rotateSize : Int

/-- `filepath.Join` restricted to the shapes that occur here: empty
components are dropped, otherwise the parts are joined with a slash. -/
def joinPath (dir name : String) : String :=
  if dir = "" then name else if name = "" then dir else dir ++ "/" ++ name

/-- Modelled from the spec: `getSizeString` is not among the sources at
hand; the spec shows the human-readable size used inside rotating file
names (`rotating-100B.0.log` for a 100-byte ceiling; the default ceiling
`1 << 30` reads as one gigabyte). -/
def getSizeString (size : Int) : String :=
  if size % 1073741824 = 0 ∧ 1073741824 ≤ size then toString (size / 1073741824) ++ "GB"
  else if size % 1048576 = 0 ∧ 1048576 ≤ size then toString (size / 1048576) ++ "MB"
  else if size % 1024 = 0 ∧ 1024 ≤ size then toString (size / 1024) ++ "KB"
  else toString size ++ "B"

/-- Numeric value of a run of decimal digit characters. -/
def digitsVal (ds : List Char) : Nat :=
  ds.foldl (fun a c => a * 10 + (c.toNat - 48)) 0

/-- Modelled from the spec: `getNextFileName` is not among the sources at
hand; rotating file names carry an index segment just before the `.log`
suffix, starting at 0 and incrementing monotonically — this advances
that index by one and leaves any other name unchanged. -/
def getNextFileName (name : String) : String :=
  let cs := name.data
  if cs.reverse.take 4 = ['g', 'o', 'l', '.'] then
    let stem := cs.take (cs.length - 4)
    let revDigits := stem.reverse.takeWhile (fun c => c.isDigit)
    let pre := (stem.reverse.drop revDigits.length).reverse
    let idx := digitsVal revDigits.reverse
    String.mk (pre ++ (toString (idx + 1)).data ++ ['.', 'l', 'o', 'g'])
  else name

/-- The probe loop of `buildFileWriterBySize` (source lines 266-277): walk
the candidate names until one is missing (create it) or still has room
(append to it).  The loop is unbounded in Go; here it takes fuel. -/
def probeLoop (fs : FileSys) (logDir : String) (rotateSize recordSize : Int) :
    String → Nat → Option (String × Bool)
  | _, 0 => none
  | fname, fuel + 1 =>
    match fs.stat (joinPath logDir fname) with
    | none => some (fname, true)
    | some size =>
      if size + recordSize ≤ rotateSize then some (fname, false)
      else probeLoop fs logDir rotateSize recordSize (getNextFileName fname) fuel

/-- Source `buildFileWriterBySize` (lines 261-292). -/
def buildFileWriterBySize (l : Logger) (fs : FileSys) (recordSize : Int) (fuel : Nat) :
    Option (String × Bool) :=
  if l.logFile = "" then
    probeLoop fs l.logDir l.rotateSize recordSize
      ("rotating-" ++ getSizeString l.rotateSize ++ ".0.log") fuel
  else
    match fs.stat (joinPath l.logDir l.logFile) with
    | none => some (l.logFile, true)
    | some size =>
      if l.rotateSize < size + recordSize then some (getNextFileName l.logFile, true)
      else some (l.logFile, false)

/-- The default-filling preamble of `buildFileWriter` (source lines
205-213).  `rotateType` is a `uint8` in Go, so the lower bound of the
range check `rotateType < RotateNone` is vacuous and only `> RotateSize`
acts. -/
def applyDefaults (l : Logger) : Logger :=
  let l1 := if l.logDir = "" then { l with logDir := "/tmp" } else l
  let l2 := if 4 < l1.rotateType then { l1 with rotateType := 2 } else l1
  if l2.rotateType = 4 ∧ l2.rotateSize = 0 then { l2 with rotateSize := 1073741824 } else l2

/-- The `(logFile, needCreateFile)` decision of `buildFileWriter`
(source lines 215-234): dispatch on the rotation strategy and, for the
calendar strategies, test existence of the target on disk. -/
def decideLogFile (l : Logger) (fs : FileSys) (args : RotateArgs) (fuel : Nat) :
    Option (String × Bool) :=
  if l.rotateType = 4 then
    buildFileWriterBySize l fs args.sizeOr0 fuel
  else
    let t := args.timeOrZero
    let logFile :=
      if l.rotateType = 0 then "default.log"
      else if l.rotateType = 1 then dayLogName t
      else if l.rotateType = 2 then hourLogName t
      else if l.rotateType = 3 then minuteLogName t
      else ""
    some (logFile, (fs.stat (joinPath l.logDir logFile)).isNone)

/-- Close a sink (`w.Close()`): closing a file handle releases it from the
set of handles the logger opened; closing a console stream does not
touch that set. -/
def closeSink (w : World) : Sink → World
  | .fileH id _ => { w with openH := w.openH.erase id }
  | _ => w

/-- Point update of the size oracle. -/
def statSet (fs : FileSys) (path : String) (n : Int) : FileSys :=
  { fs with stat := fun p => if p = path then some n else fs.stat p }

/-- `os.Create`: truncate the file to size 0 and hand out a fresh handle. -/
def createFile (w : World) (path : String) : World × Sink :=
  ({ w with openH := w.nextId :: w.openH, nextId := w.nextId + 1, fs := statSet w.fs path 0 },
   .fileH w.nextId path)

/-- `os.OpenFile(path, O_WRONLY|O_APPEND, 0666)`: fresh handle, contents
untouched. -/
def openAppend (w : World) (path : String) : World × Sink :=
  ({ w with openH := w.nextId :: w.openH, nextId := w.nextId + 1 }, .fileH w.nextId path)

/-- The tail of `buildFileWriter` after the decision (source lines
235-258): record `logFile` on the logger, then either create the target
(closing the previously held file writer first, falling back to
console-err on failure) or reuse / open-for-append the existing file
(again falling back to console-err on failure). -/
def materializeFile (l1 : Logger) (w : World) (logFile : String)
    (needCreateFile : Bool) : Logger × World × Sink :=
  let l2 := { l1 with logFile := logFile }
  let path := joinPath l2.logDir l2.logFile
  if needCreateFile then
    let w1 := match l2.wFile with
      | some s => closeSink w s
      | none => w
    if w1.fs.createOk path then
      let ws := createFile w1 path
      (l2, ws.1, ws.2)
    else (l2, w1, .stderrS)
  else
    match l2.wFile with
    | some s => (l2, w, s)
    | none =>
      if (w.fs.stat path).isSome ∧ w.fs.openOk path then
        let ws := openAppend w path
        (l2, ws.1, ws.2)
      else (l2, w, .stderrS)

/-- Source `buildFileWriter` (lines 200-259): returns the updated logger
(defaults filled, `logFile` recorded), the updated handle/filesystem
state, and the sink to use as the file destination; `none` only when the
size probe runs out of fuel. -/
def buildFileWriter (l : Logger) (w : World) (args : RotateArgs) (fuel : Nat) :
    Option (Logger × World × Sink) :=
  if l.handler &&& 4 ≠ 4 then some (l, w, .stderrS)
  else
    let l1 := applyDefaults l
    match decideLogFile l1 w.fs args fuel with
    | none => none
    | some (logFile, needCreateFile) => some (materializeFile l1 w logFile needCreateFile)

/-- Source `buildWriter` (lines 182-198): materialize the handler bitset
into the three writer slots; the file slot is dropped (without closing)
when the file bit is unset. -/
def buildWriter (l : Logger) (w : World) (args : RotateArgs) (fuel : Nat) :
    Option (Logger × World) :=
  let la := { l with wStdout := if l.handler &&& 1 = 1 then some Sink.stdoutS else none }
  let lb := { la with wStderr := if la.handler &&& 2 = 2 then some Sink.stderrS else none }
  if lb.handler &&& 4 = 4 then
    match buildFileWriter lb w args fuel with
    | none => none
    | some (l2, w2, s) => some ({ l2 with wFile := some s }, w2)
  else some ({ lb with wFile := none }, w)

/-- One format token rendered (source lines 154-171); unsupported tokens
are skipped (`none`). -/
def renderToken (level : Level) (now : DateTime) (caller : Caller) (msg : String)
    (f : String) : Option String :=
  if f = "level" then some ("[" ++ gLevelString level ++ "]")
  else if f = "ltime" then some (fmtLTimeOf now)
  else if f = "time" then some (fmtTimeOf now)
  else if f = "location" then
    some (caller.file ++ ":" ++ toString caller.line ++ ":" ++ caller.funcname ++ ":")
  else if f = "msg" then some msg
  else none

/-- The record line: supported tokens rendered in order, joined by a
single space (source line 172). -/
def formatRecord (fmt : List String) (level : Level) (now : DateTime)
    (caller : Caller) (msg : String) : String :=
  String.intercalate " " (fmt.filterMap (renderToken level now caller msg))

/-- Source `logging` (lines 136-180) up to the channel send: `none` on the
early-exit fast path, otherwise the `writerArgs` value that is sent
(record text plus rotation hint).  `msg` is the already-rendered
`fmt.Sprintf(format, args...)` body. -/
def logging (l : Logger) (level : Level) (now : DateTime) (caller : Caller)
    (msg : String) : Option (String × RotateArgs) :=
  if l.handler = 0 ∨ level.toNat < l.levelThreshold.toNat then none
  else
    let record := formatRecord l.logFormat level now caller msg
    if l.rotateType = 4 then some (record, .size (Int.ofNat record.utf8ByteSize))
    else some (record, .time now)

/-- Source setters (lines 294-304). -/
def SetHandler (l : Logger) (h : Nat) : Logger := { l with handler := h }

def SetLogDir (l : Logger) (dir : String) : Logger := { l with logDir := dir }

def SetLogLevel (l : Logger) (level : Level) : Logger := { l with levelThreshold := level }

def SetLogFormat (l : Logger) (fmt : List String) : Logger := { l with logFormat := fmt }

def SetRotateType (l : Logger) (rotate : Nat) : Logger := { l with rotateType := rotate }

def SetRotateSize (l : Logger) (size : Int) : Logger := { l with rotateSize := size }

/-- Whole-system state of one logger: the struct, the handle world, the
bounded channel contents (a `none` entry is the nil sentinel), and the
channel/`done` lifecycle flags of the backend goroutine. -/
structure Config where
  lg : Logger
  world : World
  queue : List (Option (String × RotateArgs))
  queueCap : Nat
  doneClosed : Bool
  queueClosed : Bool
  terminated : Bool

/-- Source `Close` (lines 354-361): a non-blocking probe of `done` (which
only ever closes, never carries a value), then the nil sentinel is sent. -/
def Close (c : Config) : Config :=
  if c.doneClosed then c else { c with queue := c.queue ++ [none] }

/-- Appending `n` bytes to the file at `path` (absent files read as size
0: the descriptor keeps writing even if the file was since replaced). -/
def appendBytes (fs : FileSys) (path : String) (n : Int) : FileSys :=
  statSet fs path ((fs.stat path).getD 0 + n)

/-- Writing the record to one destination (`fmt.Fprint`): a file write
grows the file at the handle's path; console writes leave the
filesystem alone. -/
def writeSink (record : String) (w : World) : Option Sink → World
  | some (.fileH _ path) =>
    { w with fs := appendBytes w.fs path (Int.ofNat record.utf8ByteSize) }
  | _ => w

/-- The write fan-out of the backend goroutine (source lines 390-392). -/
def writeRecord (l : Logger) (w : World) (record : String) : World :=
  writeSink record (writeSink record (writeSink record w l.wStdout) l.wStderr) l.wFile

/-- One iteration of the backend writer goroutine (source lines 379-394):
after termination nothing happens; the nil sentinel closes `done` and
the channel and stops the loop; a record rebuilds the writers and is
written to each of them. -/
def consumerStep (fuel : Nat) (c : Config) : Option Config :=
  if c.terminated then some c
  else
    match c.queue with
    | [] => some c
    | none :: rest =>
      some { c with queue := rest, doneClosed := true, queueClosed := true, terminated := true }
    | some (record, args) :: rest =>
      match buildWriter c.lg c.world args fuel with
      | none => none
      | some (l2, w2) =>
        some { c with lg := l2, world := writeRecord l2 w2 record, queue := rest }

/-- The operations a run is made of: producer-side logging calls, the
configuration setters, `Close`, and one scheduling step of the backend
writer goroutine. -/
inductive Op where
  | logOp (level : Level) (now : DateTime) (caller : Caller) (msg : String)
  | setHandler (h : Nat)
  | setLogDir (dir : String)
  | setLogLevel (level : Level)
  | setLogFormat (fmt : List String)
  | setRotateType (r : Nat)
  | setRotateSize (n : Int)
  | closeOp
  | stepOp

/-- Effect of one operation; `none` models a Go panic (send on a closed
channel) or probe-fuel exhaustion. -/
def runOp (fuel : Nat) (c : Config) : Op → Option Config
  | .logOp level now caller msg =>
    match logging c.lg level now caller msg with
    | none => some c
    | some job =>
      if c.queueClosed then none else some { c with queue := c.queue ++ [some job] }
  | .setHandler h => some { c with lg := SetHandler c.lg h }
  | .setLogDir dir => some { c with lg := SetLogDir c.lg dir }
  | .setLogLevel level => some { c with lg := SetLogLevel c.lg level }
  | .setLogFormat fmt => some { c with lg := SetLogFormat c.lg fmt }
  | .setRotateType r => some { c with lg := SetRotateType c.lg r }
  | .setRotateSize n => some { c with lg := SetRotateSize c.lg n }
  | .closeOp => some (Close c)
  | .stepOp => consumerStep fuel c

/-- A whole run. -/
def runOps (fuel : Nat) (c : Config) : List Op → Option Config
  | [] => some c
  | op :: ops =>
    match runOp fuel c op with
    | none => none
    | some c2 => runOps fuel c2 ops

/-- Source `NewLogger` (lines 363-398): zero-valued file configuration, no
handler, `DEBUG` threshold, the default format, a channel of capacity
100, and the backend goroutine not yet signalled done.  The ambient
filesystem is a parameter. -/
def NewLogger (fs : FileSys) : Config :=
  { lg := { wStdout := none, wStderr := none, wFile := none,
            logFormat := ["level", "ltime", "location", "msg"],
            levelThreshold := .DEBUG, handler := 0,
            logDir := "", logFile := "", rotateType := 0, rotateSize := 0 },
    world := { openH := [], nextId := 0, fs := fs },
    queue := [], queueCap := 100,
    doneClosed := false, queueClosed := false, terminated := false }

/-- The acceptance test of the spec's linear probe: a candidate is taken
when it does not exist on disk, or exists with room for the hint. -/
def probeAccept (fs : FileSys) (logDir : String) (rotateSize hintBytes : Int)
    (name : String) : Bool :=
  match fs.stat (joinPath logDir name) with
  | none => true
  | some size => decide (size + hintBytes ≤ rotateSize)

/-- The k-th candidate of the probe sequence
`rotating-<size>.0.log, rotating-<size>.1.log, ...`. -/
def sizeCandidate (l : Logger) (k : Nat) : String :=
  getNextFileName^[k] ("rotating-" ++ getSizeString l.rotateSize ++ ".0.log")

/-- The RotateSize rotation decision exactly as the spec words it: with no
recorded filename, the first candidate of the linear probe that is
missing (new file) or still fits (append); with a recorded filename, the
trichotomy on that file's presence and size. -/
def sizeRotationSpec (l : Logger) (fs : FileSys) (hintBytes : Int) (fuel : Nat) :
    Option (String × Bool) :=
  if l.logFile = "" then
    match (List.range fuel).find?
        (fun k => probeAccept fs l.logDir l.rotateSize hintBytes (sizeCandidate l k)) with
    | some k =>
      some (sizeCandidate l k, (fs.stat (joinPath l.logDir (sizeCandidate l k))).isNone)
    | none => none
  else
    match fs.stat (joinPath l.logDir l.logFile) with
    | none => some (l.logFile, true)
    | some size =>
      if l.rotateSize < size + hintBytes then some (getNextFileName l.logFile, true)
      else some (l.logFile, false)

/-- A filesystem with no files where every create/open succeeds; used for
concrete instantiations. -/
def emptyFS : FileSys :=
  { stat := fun _ => none, createOk := fun _ => true, openOk := fun _ => true }

/-- A fixed sample timestamp for concrete instantiations. -/
def sampleT : DateTime := ⟨2026, 10, 11, 13, 45, 7, 123⟩

/-- A fixed sample caller location for concrete instantiations. -/
def sampleCaller : Caller := ⟨"client.go", 42, "Send"⟩

/-- A logger configured for file logging with `RotateNone`, with
`default.log` already recorded as the current file. -/
def c5Logger : Logger :=
  { wStdout := none, wStderr := none, wFile := none,
    logFormat := ["level", "ltime", "location", "msg"],
    levelThreshold := .DEBUG, handler := 4,
    logDir := "/d", logFile := "default.log", rotateType := 0, rotateSize := 0 }

/-- A fresh logger with only the console-out handler enabled. -/
def stdoutConfig : Config :=
  { NewLogger emptyFS with lg := SetHandler (NewLogger emptyFS).lg 1 }

/-- The write-job `stdoutConfig` enqueues for an INFO record. -/
def sampleJob : String × RotateArgs :=
  (formatRecord stdoutConfig.lg.logFormat .INFO sampleT sampleCaller "hello",
   .time sampleT)

/-- File logging toggled off and back on between records: job 1 opens
`default.log`, job 2 (console only) drops the file writer without
closing it, job 3 opens the file again — leaking the first handle. -/
def c4CexOps : List Op :=
  [ .setRotateType 0, .setLogDir "/d", .setHandler 4,
    .logOp .INFO sampleT sampleCaller "x",
    .stepOp,
    .setHandler 1,
    .logOp .INFO sampleT sampleCaller "y",
    .stepOp,
    .setHandler 4,
    .logOp .INFO sampleT sampleCaller "z",
    .stepOp ]

/-- The file handles a writer slot keeps alive: one for a held file
handle, none for a console sink or an empty slot. -/
def sinkHandles : Option Sink → List Nat
  | some (.fileH id _) => [id]
  | _ => []

/-- The open handles are exactly the ones the file writer slot holds. -/
def wFileOpenMatch (c : Config) : Prop :=
  c.world.openH = sinkHandles c.lg.wFile

/-- Inductive invariant for the amended C4: the handler bitset is zero or
has the file bit; while it is zero nothing was ever enqueued or opened;
and the open-handle set tracks the file writer slot. -/
def InvC4 (c : Config) : Prop :=
  (c.lg.handler = 0 ∨ c.lg.handler &&& 4 = 4) ∧
  (c.lg.handler = 0 → c.lg.wFile = none ∧ ∀ j ∈ c.queue, j = none) ∧
  wFileOpenMatch c

/-- A filesystem holding a 10-byte `/d/default.log` where every
create/open succeeds; used for concrete instantiations. -/
def existFS : FileSys :=
  { stat := fun p => if p = "/d/default.log" then some 10 else none,
    createOk := fun _ => true, openOk := fun _ => true }

/-- A fresh logger whose shutdown has already completed. -/
def closedConfig : Config := { NewLogger emptyFS with doneClosed := true }

/-- A fresh logger with the nil sentinel pending on the queue. -/
def sentinelConfig : Config := { NewLogger emptyFS with queue := [none] }

/-- Claim C10: NewLogger returns a Logger whose handler selection is None,
level threshold DEBUG, format the default [level, ltime, location, msg]
token list, and queue capacity 100; consequently, for every level and
every message, a logging call on a freshly constructed Logger on which
SetHandler has not yet been called returns without enqueuing or writing
anything. -/
theorem C10_new_logger_defaults (fs : FileSys) :
    (NewLogger fs).lg.handler = HNone ∧
    (NewLogger fs).lg.levelThreshold = Level.DEBUG ∧
    (NewLogger fs).lg.logFormat = ["level", "ltime", "location", "msg"] ∧
    (NewLogger fs).queueCap = 100 ∧
    ∀ (fuel : Nat) (level : Level) (now : DateTime) (caller : Caller) (msg : String),
      runOp fuel (NewLogger fs) (.logOp level now caller msg) = some (NewLogger fs) := by
  refine ⟨rfl, rfl, rfl, rfl, ?_⟩
  intro fuel level now caller msg
  simp [runOp, logging, NewLogger]

/-- Claim C1: for every severity level, threshold and handler selection, a
logging call enqueues exactly one write-job on the queue iff the handler
selection is nonempty and the level reaches the threshold; otherwise the
call returns immediately with no queue interaction and no change to the
logger state. -/
theorem C1_logging_enqueue_iff (c : Config) (level : Level) (now : DateTime)
    (caller : Caller) (msg : String) (fuel : Nat) :
    ((logging c.lg level now caller msg).isSome ↔
      (c.lg.handler ≠ HNone ∧ c.lg.levelThreshold.toNat ≤ level.toNat)) ∧
    ((c.lg.handler = HNone ∨ level.toNat < c.lg.levelThreshold.toNat) →
      runOp fuel c (.logOp level now caller msg) = some c) ∧
    (¬c.queueClosed = true → c.lg.handler ≠ HNone →
      c.lg.levelThreshold.toNat ≤ level.toNat →
      ∃ job, logging c.lg level now caller msg = some job ∧
        runOp fuel c (.logOp level now caller msg) =
          some { c with queue := c.queue ++ [some job] }) := by
  refine ⟨?_, ?_, ?_⟩
  · by_cases h : c.lg.handler = 0 ∨ level.toNat < c.lg.levelThreshold.toNat
    · simp only [logging, if_pos h, Option.isSome_none, HNone]
      constructor
      · intro hf; cases hf
      · rintro ⟨h1, h2⟩
        rcases h with h | h
        · exact absurd h h1
        · omega
    · push_neg at h
      simp only [logging, if_neg (show ¬(c.lg.handler = 0 ∨
          level.toNat < c.lg.levelThreshold.toNat) by push_neg; exact h), HNone]
      constructor
      · intro _
        exact ⟨h.1, by omega⟩
      · intro _
        by_cases hr : c.lg.rotateType = 4 <;> simp [hr]
  · intro h
    have h0 : c.lg.handler = 0 ∨ level.toNat < c.lg.levelThreshold.toNat := h
    simp [runOp, logging, if_pos h0]
  · intro hqc hh hl
    have hcond : ¬(c.lg.handler = 0 ∨ level.toNat < c.lg.levelThreshold.toNat) := by
      push_neg
      exact ⟨hh, by omega⟩
    have hjob : ∃ job, logging c.lg level now caller msg = some job := by
      simp only [logging, if_neg hcond]
      by_cases hr : c.lg.rotateType = 4 <;> simp [hr]
    obtain ⟨job, hj⟩ := hjob
    refine ⟨job, hj, ?_⟩
    simp [runOp, hj, hqc]

/-- Witness for C1 at concrete inputs: a fresh logger with the console-out
handler enqueues exactly the formatted INFO job, and a fresh logger with
no handler is left untouched by a logging call. -/
theorem C1_logging_enqueue_iff_witness :
    runOp 1 (NewLogger emptyFS) (.logOp Level.INFO sampleT sampleCaller "hello") =
      some (NewLogger emptyFS) ∧
    runOp 1 stdoutConfig (.logOp Level.INFO sampleT sampleCaller "hello") =
      some { stdoutConfig with queue := stdoutConfig.queue ++ [some sampleJob] } := by
  constructor
  · exact (C1_logging_enqueue_iff (NewLogger emptyFS) .INFO sampleT sampleCaller
      "hello" 1).2.1 (Or.inl rfl)
  · obtain ⟨job, hj, hrun⟩ := (C1_logging_enqueue_iff stdoutConfig .INFO sampleT
      sampleCaller "hello" 1).2.2 (by decide) (by decide) (by decide)
    have hw : logging stdoutConfig.lg Level.INFO sampleT sampleCaller "hello" =
        some sampleJob := by decide
    rw [hw] at hj
    injection hj with hj2
    rw [← hj2] at hrun
    exact hrun

/-- Counterexample to claim C5: with strategy RotateNone, a prior filename
(`default.log`) already recorded and the file absent from disk, the
rotation decision still returns needNewFile = true — so needNewFile is
not true only when no prior filename has been recorded. -/
theorem C5_counterexample :
    decideLogFile c5Logger emptyFS (.time sampleT) 1 = some ("default.log", true) ∧
    c5Logger.logFile = "default.log" := by
  decide

/-- Claim C5 as amended: under strategy RotateNone the rotation decision
always yields the fixed filename default.log, and needNewFile is true
iff default.log does not exist on disk at decision time (with a
successfully created and never-removed file, that is only the first
decision). -/
theorem C5_rotate_none_amended (l : Logger) (fs : FileSys) (args : RotateArgs)
    (fuel : Nat) (h : l.rotateType = 0) :
    decideLogFile l fs args fuel =
      some ("default.log", (fs.stat (joinPath l.logDir "default.log")).isNone) := by
  simp [decideLogFile, h]

/-- Witness for C5 (amended) at concrete inputs: on an empty filesystem
the RotateNone decision is (default.log, create it). -/
theorem C5_rotate_none_amended_witness :
    decideLogFile c5Logger emptyFS (.time sampleT) 1 =
      some ("default.log", (emptyFS.stat (joinPath c5Logger.logDir "default.log")).isNone) :=
  C5_rotate_none_amended c5Logger emptyFS (.time sampleT) 1 (by decide)

/-- Claim C6: under strategies RotateDay, RotateHour and RotateMinute the
target filename is the hint timestamp formatted at the corresponding
calendar granularity (YYYY-MM-DD.log, YYYY-MM-DD_HH.log,
YYYY-MM-DD_HH-MM.log), and needNewFile is true iff no file with that
exact name exists on disk at decision time. -/
theorem C6_calendar_rotation (l : Logger) (fs : FileSys) (t : DateTime) (fuel : Nat) :
    (l.rotateType = 1 → decideLogFile l fs (.time t) fuel =
      some (dayLogName t, (fs.stat (joinPath l.logDir (dayLogName t))).isNone)) ∧
    (l.rotateType = 2 → decideLogFile l fs (.time t) fuel =
      some (hourLogName t, (fs.stat (joinPath l.logDir (hourLogName t))).isNone)) ∧
    (l.rotateType = 3 → decideLogFile l fs (.time t) fuel =
      some (minuteLogName t, (fs.stat (joinPath l.logDir (minuteLogName t))).isNone)) := by
  refine ⟨?_, ?_, ?_⟩ <;> intro h <;> simp [decideLogFile, h, RotateArgs.timeOrZero]

/-- Witness for C6 at concrete inputs: hourly rotation on an empty
filesystem targets 2026-10-11_13.log and asks for its creation. -/
theorem C6_calendar_rotation_witness :
    decideLogFile { c5Logger with rotateType := 2 } emptyFS (.time sampleT) 1 =
      some (hourLogName sampleT,
        (emptyFS.stat (joinPath c5Logger.logDir (hourLogName sampleT))).isNone) :=
  (C6_calendar_rotation { c5Logger with rotateType := 2 } emptyFS sampleT 1).2.1 (by decide)

/-- Claim C3: Close is idempotent — after completed shutdown it returns
immediately with no effect; otherwise it only appends the nil sentinel
and returns; processing the sentinel closes the done signal and the
queue and terminates the writer task, after which every Close is a
no-op and no job is ever processed. -/
theorem C3_close_shutdown (c : Config) :
    (c.doneClosed = true → Close c = c) ∧
    (¬c.doneClosed = true → Close c = { c with queue := c.queue ++ [none] }) ∧
    (∀ fuel rest, ¬c.terminated = true → c.queue = none :: rest →
      consumerStep fuel c =
        some { c with
                 queue := rest, doneClosed := true,
                 queueClosed := true, terminated := true }) ∧
    (c.terminated = true → ∀ fuel, consumerStep fuel c = some c) ∧
    (∀ fuel rest c2, ¬c.terminated = true → c.queue = none :: rest →
      consumerStep fuel c = some c2 →
      Close c2 = c2 ∧ ∀ fuel2, consumerStep fuel2 c2 = some c2) := by
  refine ⟨?_, ?_, ?_, ?_, ?_⟩
  · intro h
    simp [Close, h]
  · intro h
    simp [Close, h]
  · intro fuel rest ht hq
    simp [consumerStep, ht, hq]
  · intro h fuel
    simp [consumerStep, h]
  · intro fuel rest c2 ht hq h
    rw [show consumerStep fuel c =
        some { c with
                 queue := rest, doneClosed := true,
                 queueClosed := true, terminated := true } by
      simp [consumerStep, ht, hq]] at h
    injection h with h2
    rw [← h2]
    exact ⟨by simp [Close], fun fuel2 => by simp [consumerStep]⟩

/-- Witness for C3 at concrete inputs: a closed logger ignores Close, a
fresh logger enqueues the sentinel, and processing a pending sentinel
ends the writer task with both signals closed. -/
theorem C3_close_shutdown_witness :
    Close closedConfig = closedConfig ∧
    Close (NewLogger emptyFS) =
      { NewLogger emptyFS with queue := (NewLogger emptyFS).queue ++ [none] } ∧
    consumerStep 1 sentinelConfig =
      some { sentinelConfig with
               queue := [], doneClosed := true,
               queueClosed := true, terminated := true } := by
  refine ⟨(C3_close_shutdown closedConfig).1 (by decide),
    (C3_close_shutdown (NewLogger emptyFS)).2.1 (by decide), ?_⟩
  exact (C3_close_shutdown sentinelConfig).2.2.1 1 [] (by decide) rfl

theorem applyDefaults_handler (l : Logger) : (applyDefaults l).handler = l.handler := by
  simp only [applyDefaults]
  repeat' split
  all_goals rfl

theorem applyDefaults_wFile (l : Logger) : (applyDefaults l).wFile = l.wFile := by
  simp only [applyDefaults]
  repeat' split
  all_goals rfl

theorem applyDefaults_rotateType_over (l : Logger) (hr : 4 < l.rotateType) :
    (applyDefaults l).rotateType = 2 := by
  unfold applyDefaults
  by_cases hd : l.logDir = "" <;> simp [hd, hr]

theorem applyDefaults_setRotate2 (l : Logger) (hr : 4 < l.rotateType) :
    applyDefaults (SetRotateType l 2) = applyDefaults l := by
  unfold applyDefaults SetRotateType
  by_cases hd : l.logDir = "" <;> simp [hd, hr]

theorem materializeFile_fst (l1 : Logger) (w : World) (name : String) (nc : Bool) :
    (materializeFile l1 w name nc).1 = { l1 with logFile := name } := by
  simp only [materializeFile]
  repeat' split
  all_goals rfl

theorem buildFileWriter_congr (l l' : Logger) (w : World) (args : RotateArgs)
    (fuel : Nat) (hh : l.handler &&& 4 = 4) (hh' : l'.handler = l.handler)
    (had : applyDefaults l' = applyDefaults l) :
    buildFileWriter l w args fuel = buildFileWriter l' w args fuel := by
  have hg : ¬(l.handler &&& 4 ≠ 4) := by simp [hh]
  unfold buildFileWriter
  rw [hh', had, if_neg hg, if_neg hg]

theorem buildFileWriter_some_shape (l : Logger) (w : World) (args : RotateArgs)
    (fuel : Nat) (l2 : Logger) (w2 : World) (s : Sink) (hh : l.handler &&& 4 = 4)
    (h : buildFileWriter l w args fuel = some (l2, w2, s)) :
    ∃ name nc, decideLogFile (applyDefaults l) w.fs args fuel = some (name, nc) ∧
      l2 = { applyDefaults l with logFile := name } ∧
      (l2, w2, s) = materializeFile (applyDefaults l) w name nc := by
  unfold buildFileWriter at h
  rw [if_neg (show ¬(l.handler &&& 4 ≠ 4) by simp [hh])] at h
  dsimp only at h
  cases hdec : decideLogFile (applyDefaults l) w.fs args fuel with
  | none =>
    rw [hdec] at h
    cases h
  | some p =>
    obtain ⟨name, nc⟩ := p
    rw [hdec] at h
    dsimp only at h
    injection h with h2
    refine ⟨name, nc, rfl, ?_, h2.symm⟩
    have h3 := congrArg Prod.fst h2
    dsimp only at h3
    rw [materializeFile_fst] at h3
    exact h3.symm

/-- Claim C9: any rotation-strategy value outside the recognized range is
stored unchanged by SetRotateType; when the Destination Set Builder next
materializes the file destination, the behaviour is that of the default
hourly strategy and the stored value is silently replaced by it — the
substitution happens at evaluation time, not at set time, and is never
surfaced. -/
theorem C9_invalid_rotate_type_deferred (l : Logger) (r : Nat) (w : World)
    (args : RotateArgs) (fuel : Nat) :
    (SetRotateType l r).rotateType = r ∧
    (4 < l.rotateType → l.handler &&& 4 = 4 →
      buildFileWriter l w args fuel = buildFileWriter (SetRotateType l 2) w args fuel ∧
      ∀ l2 w2 s, buildFileWriter l w args fuel = some (l2, w2, s) →
        l2.rotateType = 2) := by
  refine ⟨rfl, fun hr hh => ⟨?_, ?_⟩⟩
  · exact (buildFileWriter_congr l (SetRotateType l 2) w args fuel hh rfl
      (applyDefaults_setRotate2 l hr)).symm ▸ rfl
  · intro l2 w2 s h
    obtain ⟨name, nc, _, hl2, _⟩ :=
      buildFileWriter_some_shape l w args fuel l2 w2 s hh h
    rw [hl2]
    exact applyDefaults_rotateType_over l hr

/-- Witness for C9 at concrete inputs: rotate type 9 is stored verbatim,
and evaluation with rotate type 9 behaves as hourly rotation. -/
theorem C9_invalid_rotate_type_deferred_witness :
    (SetRotateType c5Logger 9).rotateType = 9 ∧
    buildFileWriter (SetRotateType c5Logger 9) (World.mk [] 0 emptyFS) (.time sampleT) 1 =
      buildFileWriter (SetRotateType (SetRotateType c5Logger 9) 2)
        (World.mk [] 0 emptyFS) (.time sampleT) 1 := by
  refine ⟨(C9_invalid_rotate_type_deferred c5Logger 9 (World.mk [] 0 emptyFS)
    (.time sampleT) 1).1, ?_⟩
  exact ((C9_invalid_rotate_type_deferred (SetRotateType c5Logger 9) 9
    (World.mk [] 0 emptyFS) (.time sampleT) 1).2 (by decide) (by decide)).1

theorem buildFileWriter_materialize (l : Logger) (w : World) (args : RotateArgs)
    (fuel : Nat) (name : String) (nc : Bool) (hh : l.handler &&& 4 = 4)
    (hdec : decideLogFile (applyDefaults l) w.fs args fuel = some (name, nc)) :
    buildFileWriter l w args fuel = some (materializeFile (applyDefaults l) w name nc) := by
  unfold buildFileWriter
  rw [if_neg (show ¬(l.handler &&& 4 ≠ 4) by simp [hh])]
  dsimp only
  rw [hdec]

/-- Claim C7: with the file bit set and needNewFile = false — if a handle
for the target filename is already held, it is reused; if no handle is
held but the target exists on disk, it is opened for append; if that
open fails, the file destination of this cycle is console-err. -/
theorem C7_no_new_file_reuse_or_append (l : Logger) (w : World) (args : RotateArgs)
    (fuel : Nat) (name : String) (hh : l.handler &&& 4 = 4)
    (hdec : decideLogFile (applyDefaults l) w.fs args fuel = some (name, false)) :
    (∀ id, l.wFile = some (.fileH id (joinPath (applyDefaults l).logDir name)) →
      buildFileWriter l w args fuel =
        some ({ applyDefaults l with logFile := name }, w,
          .fileH id (joinPath (applyDefaults l).logDir name))) ∧
    (l.wFile = none →
      (w.fs.stat (joinPath (applyDefaults l).logDir name)).isSome = true →
      w.fs.openOk (joinPath (applyDefaults l).logDir name) = true →
      buildFileWriter l w args fuel =
        some ({ applyDefaults l with logFile := name },
          (openAppend w (joinPath (applyDefaults l).logDir name)).1,
          .fileH w.nextId (joinPath (applyDefaults l).logDir name))) ∧
    (l.wFile = none →
      ¬((w.fs.stat (joinPath (applyDefaults l).logDir name)).isSome = true ∧
        w.fs.openOk (joinPath (applyDefaults l).logDir name) = true) →
      buildFileWriter l w args fuel =
        some ({ applyDefaults l with logFile := name }, w, .stderrS)) := by
  have hbw := buildFileWriter_materialize l w args fuel name false hh hdec
  have hwf : (applyDefaults l).wFile = l.wFile := applyDefaults_wFile l
  refine ⟨?_, ?_, ?_⟩
  · intro id hw
    rw [hbw]
    simp [materializeFile, hwf, hw]
  · intro hw hstat hopen
    rw [hbw]
    simp [materializeFile, hwf, hw, openAppend, hstat, hopen]
  · intro hw hfail
    rw [hbw]
    simp only [materializeFile, hwf, hw]
    simp [hfail]

/-- Witness for C7 at concrete inputs: with `/d/default.log` present and
no handle held, the RotateNone cycle opens the file for append. -/
theorem C7_no_new_file_reuse_or_append_witness :
    buildFileWriter c5Logger (World.mk [] 0 existFS) (.time sampleT) 1 =
      some ({ applyDefaults c5Logger with logFile := "default.log" },
        (openAppend (World.mk [] 0 existFS)
          (joinPath (applyDefaults c5Logger).logDir "default.log")).1,
        .fileH (World.mk [] 0 existFS).nextId
          (joinPath (applyDefaults c5Logger).logDir "default.log")) :=
  (C7_no_new_file_reuse_or_append c5Logger (World.mk [] 0 existFS) (.time sampleT) 1
    "default.log" (by decide) (by decide)).2.1 (by decide) (by decide) (by decide)

/-- Claim C8: with needNewFile = true the builder first closes the
previously-held file handle if one exists, then creates (truncates) the
target; on creation failure the cycle's file destination is console-err
and no error propagates (the builder still returns a destination). -/
theorem C8_new_file_close_create_fallback (l : Logger) (w : World) (args : RotateArgs)
    (fuel : Nat) (name : String) (hh : l.handler &&& 4 = 4)
    (hdec : decideLogFile (applyDefaults l) w.fs args fuel = some (name, true)) :
    (buildFileWriter l w args fuel).isSome = true ∧
    (∀ id p, l.wFile = some (.fileH id p) →
      (w.fs.createOk (joinPath (applyDefaults l).logDir name) = true →
        buildFileWriter l w args fuel =
          some ({ applyDefaults l with logFile := name },
            (createFile { w with openH := w.openH.erase id }
              (joinPath (applyDefaults l).logDir name)).1,
            .fileH w.nextId (joinPath (applyDefaults l).logDir name))) ∧
      (¬w.fs.createOk (joinPath (applyDefaults l).logDir name) = true →
        buildFileWriter l w args fuel =
          some ({ applyDefaults l with logFile := name },
            { w with openH := w.openH.erase id }, .stderrS))) ∧
    (l.wFile = none →
      (w.fs.createOk (joinPath (applyDefaults l).logDir name) = true →
        buildFileWriter l w args fuel =
          some ({ applyDefaults l with logFile := name },
            (createFile w (joinPath (applyDefaults l).logDir name)).1,
            .fileH w.nextId (joinPath (applyDefaults l).logDir name))) ∧
      (¬w.fs.createOk (joinPath (applyDefaults l).logDir name) = true →
        buildFileWriter l w args fuel =
          some ({ applyDefaults l with logFile := name }, w, .stderrS))) := by
  have hbw := buildFileWriter_materialize l w args fuel name true hh hdec
  have hwf : (applyDefaults l).wFile = l.wFile := applyDefaults_wFile l
  refine ⟨by rw [hbw]; rfl, ?_, ?_⟩
  · intro id p hw
    constructor
    · intro hcr
      rw [hbw]
      simp [materializeFile, hwf, hw, closeSink, createFile, hcr]
    · intro hcr
      rw [hbw]
      simp [materializeFile, hwf, hw, closeSink, hcr]
  · intro hw
    constructor
    · intro hcr
      rw [hbw]
      simp [materializeFile, hwf, hw, createFile, hcr]
    · intro hcr
      rw [hbw]
      simp [materializeFile, hwf, hw, hcr]

/-- Witness for C8 at concrete inputs: on an empty filesystem the
RotateNone cycle creates `/d/default.log` and hands out its handle. -/
theorem C8_new_file_close_create_fallback_witness :
    buildFileWriter c5Logger (World.mk [] 0 emptyFS) (.time sampleT) 1 =
      some ({ applyDefaults c5Logger with logFile := "default.log" },
        (createFile (World.mk [] 0 emptyFS)
          (joinPath (applyDefaults c5Logger).logDir "default.log")).1,
        .fileH (World.mk [] 0 emptyFS).nextId
          (joinPath (applyDefaults c5Logger).logDir "default.log")) :=
  ((C8_new_file_close_create_fallback c5Logger (World.mk [] 0 emptyFS) (.time sampleT) 1
    "default.log" (by decide) (by decide)).2.2 (by decide)).1 (by decide)

theorem probeLoop_eq_find (fs : FileSys) (dir : String) (max hint : Int) :
    ∀ (fuel : Nat) (fname : String),
      probeLoop fs dir max hint fname fuel =
        match (List.range fuel).find?
            (fun k => probeAccept fs dir max hint (getNextFileName^[k] fname)) with
        | some k =>
          some (getNextFileName^[k] fname,
            (fs.stat (joinPath dir (getNextFileName^[k] fname))).isNone)
        | none => none := by
  intro fuel
  induction fuel with
  | zero => intro fname; rfl
  | succ n ih =>
    intro fname
    rw [List.range_succ_eq_map]
    by_cases h0 : probeAccept fs dir max hint fname = true
    · rw [List.find?_cons_of_pos
        (p := fun k => probeAccept fs dir max hint (getNextFileName^[k] fname)) (a := 0)
        _ (by simpa using h0)]
      unfold probeAccept at h0
      cases hs : fs.stat (joinPath dir fname) with
      | none => simp [probeLoop, hs]
      | some size =>
        rw [hs] at h0
        simp only [decide_eq_true_eq] at h0
        simp [probeLoop, hs, if_pos h0]
    · rw [List.find?_cons_of_neg
        (p := fun k => probeAccept fs dir max hint (getNextFileName^[k] fname)) (a := 0)
        _ (by simpa using h0)]
      rw [List.find?_map]
      have hcomp : ((fun k => probeAccept fs dir max hint (getNextFileName^[k] fname))
          ∘ Nat.succ) =
          (fun k => probeAccept fs dir max hint (getNextFileName^[k] (getNextFileName fname))) := by
        funext k
        simp [Function.comp, Function.iterate_succ_apply]
      rw [hcomp]
      have hrec : probeLoop fs dir max hint fname (n + 1) =
          probeLoop fs dir max hint (getNextFileName fname) n := by
        unfold probeAccept at h0
        cases hs : fs.stat (joinPath dir fname) with
        | none => rw [hs] at h0; simp at h0
        | some size =>
          rw [hs] at h0
          simp only [decide_eq_true_eq] at h0
          simp [probeLoop, hs, h0]
      rw [hrec, ih (getNextFileName fname)]
      cases hf : (List.range n).find?
          (fun k => probeAccept fs dir max hint (getNextFileName^[k] (getNextFileName fname))) with
      | none => simp [hf]
      | some j => simp [hf, Function.iterate_succ_apply]

/-- Claim C2: under strategy RotateSize the rotation decision of the code
equals the spec's reference procedure — with no recorded filename, the
first candidate of the linear probe rotating-(size).0.log,
rotating-(size).1.log, ... that is missing (needNewFile = true) or fits
within maxSize (needNewFile = false); with a recorded filename, the
same-name / next-index / same-name trichotomy on existence and size. -/
theorem C2_size_rotation_matches_spec (l : Logger) (fs : FileSys) (hintBytes : Int)
    (fuel : Nat) :
    buildFileWriterBySize l fs hintBytes fuel = sizeRotationSpec l fs hintBytes fuel := by
  unfold buildFileWriterBySize sizeRotationSpec
  by_cases hlf : l.logFile = ""
  · rw [if_pos hlf, if_pos hlf]
    simp only [sizeCandidate]
    exact probeLoop_eq_find fs l.logDir l.rotateSize hintBytes fuel _
  · rw [if_neg hlf, if_neg hlf]

theorem closeSink_openH (w : World) (s : Sink) (hrel : w.openH = sinkHandles (some s)) :
    (closeSink w s).openH = [] := by
  cases s with
  | stdoutS => simpa [closeSink, sinkHandles] using hrel
  | stderrS => simpa [closeSink, sinkHandles] using hrel
  | fileH id p =>
    simp only [sinkHandles] at hrel
    simp [closeSink, hrel]

theorem closeSink_fs (w : World) (s : Sink) : (closeSink w s).fs = w.fs := by
  cases s <;> rfl

theorem closeSink_nextId (w : World) (s : Sink) : (closeSink w s).nextId = w.nextId := by
  cases s <;> rfl

theorem writeSink_openH (r : String) (w : World) (os : Option Sink) :
    (writeSink r w os).openH = w.openH := by
  rcases os with _ | s
  · rfl
  · cases s <;> rfl

theorem writeRecord_openH (l : Logger) (w : World) (r : String) :
    (writeRecord l w r).openH = w.openH := by
  unfold writeRecord
  rw [writeSink_openH, writeSink_openH, writeSink_openH]

theorem materializeFile_openH (l1 : Logger) (w : World) (name : String) (nc : Bool)
    (hrel : w.openH = sinkHandles l1.wFile) :
    (materializeFile l1 w name nc).2.1.openH =
      sinkHandles (some (materializeFile l1 w name nc).2.2) := by
  rcases hw : l1.wFile with _ | s0
  · rw [hw] at hrel
    simp only [sinkHandles] at hrel
    cases nc
    · by_cases hc : ((w.fs.stat (joinPath l1.logDir name)).isSome = true ∧
          w.fs.openOk (joinPath l1.logDir name) = true)
      · simp [materializeFile, hw, hc, openAppend, sinkHandles, hrel]
      · simp [materializeFile, hw, hc, sinkHandles, hrel]
    · by_cases hc : w.fs.createOk (joinPath l1.logDir name) = true
      · simp [materializeFile, hw, hc, createFile, sinkHandles, hrel]
      · simp [materializeFile, hw, hc, sinkHandles, hrel]
  · rw [hw] at hrel
    cases nc
    · simp [materializeFile, hw, sinkHandles, hrel]
    · have hcl : (closeSink w s0).openH = [] := closeSink_openH w s0 hrel
      by_cases hc : w.fs.createOk (joinPath l1.logDir name) = true
      · simp [materializeFile, hw, closeSink_fs, closeSink_nextId, hc, createFile,
          sinkHandles, hcl]
      · simp [materializeFile, hw, closeSink_fs, hc, sinkHandles, hcl]

theorem buildFileWriter_inv (l : Logger) (w : World) (args : RotateArgs) (fuel : Nat)
    (l2 : Logger) (w2 : World) (s : Sink)
    (h : buildFileWriter l w args fuel = some (l2, w2, s))
    (hb : l.handler &&& 4 = 4)
    (hrel : w.openH = sinkHandles l.wFile) :
    w2.openH = sinkHandles (some s) ∧ l2.handler = l.handler := by
  obtain ⟨name, nc, hdec, hl2, hmat⟩ :=
    buildFileWriter_some_shape l w args fuel l2 w2 s hb h
  have hrel2 : w.openH = sinkHandles (applyDefaults l).wFile := by
    rw [applyDefaults_wFile]
    exact hrel
  have hopen := materializeFile_openH (applyDefaults l) w name nc hrel2
  constructor
  · have h21 := congrArg (fun q => q.2.1) hmat
    have h22 := congrArg (fun q => q.2.2) hmat
    dsimp only at h21 h22
    rw [h21, h22]
    exact hopen
  · rw [hl2]
    exact applyDefaults_handler l

theorem buildWriter_file_inv (l : Logger) (w : World) (args : RotateArgs) (fuel : Nat)
    (l2 : Logger) (w2 : World) (hb : l.handler &&& 4 = 4)
    (hrel : w.openH = sinkHandles l.wFile)
    (h : buildWriter l w args fuel = some (l2, w2)) :
    w2.openH = sinkHandles l2.wFile ∧ l2.handler = l.handler := by
  unfold buildWriter at h
  dsimp only at h
  rw [if_pos hb] at h
  split at h
  · cases h
  · rename_i l2x w2x sx heq
    injection h with h2
    have hp1 := congrArg Prod.fst h2
    have hp2 := congrArg Prod.snd h2
    dsimp only at hp1 hp2
    obtain ⟨ho, hhand⟩ := buildFileWriter_inv _ w args fuel l2x w2x sx heq hb hrel
    constructor
    · rw [← hp2, ← hp1]
      exact ho
    · rw [← hp1]
      exact hhand

theorem runOp_preserves_InvC4 (fuel : Nat) (c c2 : Config) (op : Op)
    (hop : ∀ hN, op = Op.setHandler hN → hN &&& 4 = 4)
    (hinv : InvC4 c) (h : runOp fuel c op = some c2) : InvC4 c2 := by
  obtain ⟨h1, h2, h3⟩ := hinv
  cases op with
  | logOp level now caller msg =>
    simp only [runOp] at h
    cases hl : logging c.lg level now caller msg with
    | none =>
      rw [hl] at h
      injection h with h2x
      rw [← h2x]
      exact ⟨h1, h2, h3⟩
    | some job =>
      have hh0 : ¬(c.lg.handler = 0 ∨ level.toNat < c.lg.levelThreshold.toNat) := by
        intro hcond
        rw [logging, if_pos hcond] at hl
        cases hl
      rw [hl] at h
      dsimp only at h
      by_cases hqc : c.queueClosed = true
      · rw [if_pos hqc] at h
        cases h
      · rw [if_neg hqc] at h
        injection h with h2x
        rw [← h2x]
        exact ⟨h1, fun hz => absurd (Or.inl hz) hh0, h3⟩
  | setHandler hN =>
    have hbit := hop hN rfl
    simp only [runOp] at h
    injection h with h2x
    rw [← h2x]
    refine ⟨Or.inr hbit, fun hz => ?_, h3⟩
    exact absurd hbit (by rw [show hN = 0 from hz]; decide)
  | setLogDir dir =>
    simp only [runOp] at h
    injection h with h2x
    rw [← h2x]
    exact ⟨h1, h2, h3⟩
  | setLogLevel level =>
    simp only [runOp] at h
    injection h with h2x
    rw [← h2x]
    exact ⟨h1, h2, h3⟩
  | setLogFormat fmt =>
    simp only [runOp] at h
    injection h with h2x
    rw [← h2x]
    exact ⟨h1, h2, h3⟩
  | setRotateType r =>
    simp only [runOp] at h
    injection h with h2x
    rw [← h2x]
    exact ⟨h1, h2, h3⟩
  | setRotateSize n =>
    simp only [runOp] at h
    injection h with h2x
    rw [← h2x]
    exact ⟨h1, h2, h3⟩
  | closeOp =>
    simp only [runOp] at h
    unfold Close at h
    by_cases hd : c.doneClosed = true
    · rw [if_pos hd] at h
      injection h with h2x
      rw [← h2x]
      exact ⟨h1, h2, h3⟩
    · rw [if_neg hd] at h
      injection h with h2x
      rw [← h2x]
      refine ⟨h1, fun hz => ⟨(h2 hz).1, fun j hj => ?_⟩, h3⟩
      rcases List.mem_append.mp hj with hj2 | hj2
      · exact (h2 hz).2 j hj2
      · simpa using hj2
  | stepOp =>
    simp only [runOp] at h
    unfold consumerStep at h
    by_cases ht : c.terminated = true
    · rw [if_pos ht] at h
      injection h with h2x
      rw [← h2x]
      exact ⟨h1, h2, h3⟩
    · rw [if_neg ht] at h
      cases hq : c.queue with
      | nil =>
        rw [hq] at h
        injection h with h2x
        rw [← h2x]
        exact ⟨h1, h2, h3⟩
      | cons j rest =>
        rw [hq] at h
        cases j with
        | none =>
          dsimp only at h
          injection h with h2x
          rw [← h2x]
          refine ⟨h1, fun hz => ⟨(h2 hz).1, fun j2 hj2 => ?_⟩, h3⟩
          exact (h2 hz).2 j2 (by rw [hq]; exact List.mem_cons_of_mem _ hj2)
        | some jr =>
          obtain ⟨record, args⟩ := jr
          dsimp only at h
          rcases h1 with hz | hb
          · have hmem := (h2 hz).2 (some (record, args))
              (by rw [hq]; exact List.mem_cons_self _ _)
            cases hmem
          · split at h
            · cases h
            · rename_i l2x w2x heq
              injection h with h2x
              rw [← h2x]
              obtain ⟨hrel2, hhand⟩ :=
                buildWriter_file_inv c.lg c.world args fuel l2x w2x hb h3 heq
              refine ⟨Or.inr (by rw [hhand]; exact hb), fun hz => ?_, ?_⟩
              · exfalso
                rw [hhand] at hz
                rw [hz] at hb
                cases hb
              · show (writeRecord l2x w2x record).openH = sinkHandles l2x.wFile
                rw [writeRecord_openH]
                exact hrel2

theorem runOps_preserves_InvC4 : ∀ (ops : List Op) (fuel : Nat) (c c2 : Config),
    (∀ hN, Op.setHandler hN ∈ ops → hN &&& 4 = 4) → InvC4 c →
    runOps fuel c ops = some c2 → InvC4 c2 := by
  intro ops
  induction ops with
  | nil =>
    intro fuel c c2 _ hinv h
    injection h with h2x
    rw [← h2x]
    exact hinv
  | cons op rest ih =>
    intro fuel c c2 hk hinv h
    unfold runOps at h
    cases hop : runOp fuel c op with
    | none =>
      rw [hop] at h
      cases h
    | some c1 =>
      rw [hop] at h
      refine ih fuel c1 c2 (fun hN hmem => hk hN (List.mem_cons_of_mem _ hmem)) ?_ h
      exact runOp_preserves_InvC4 fuel c c1 op
        (fun hN heq => hk hN (heq ▸ List.mem_cons_self _ _)) hinv hop

/-- Counterexample to claim C4: the trace `c4CexOps` — which toggles the
file bit of the handler selection off and back on between processed
records — ends with two simultaneously open file handles, so the
at-most-one-open-handle invariant fails on the code as claimed. -/
theorem C4_counterexample :
    ¬ ∀ (ops : List Op) (fuel : Nat) (c2 : Config),
        runOps fuel (NewLogger emptyFS) ops = some c2 →
        c2.world.openH.length ≤ 1 := by
  intro hcl
  have h2 : (runOps 5 (NewLogger emptyFS) c4CexOps).map
      (fun c => c.world.openH.length) = some 2 := by decide
  cases hrun : runOps 5 (NewLogger emptyFS) c4CexOps with
  | none =>
    rw [hrun] at h2
    cases h2
  | some c2 =>
    have hlen := hcl c4CexOps 5 c2 hrun
    rw [hrun] at h2
    simp only [Option.map_some'] at h2
    injection h2 with h3
    omega

/-- Claim C4 as amended: along every run of processed Write-Jobs and
configuration-setter calls on one fresh Logger in which the file bit of
the handler selection is never turned off (every SetHandler call keeps
the file bit), the set of file handles the Logger has opened and not
yet closed never exceeds one.  (Toggling the file bit off drops the
file writer without closing it, which leaks the handle — see the
counterexample.) -/
theorem C4_single_open_handle_amended (fs : FileSys) (ops : List Op) (fuel : Nat)
    (c2 : Config) (hk : ∀ hN, Op.setHandler hN ∈ ops → hN &&& 4 = 4)
    (h : runOps fuel (NewLogger fs) ops = some c2) :
    c2.world.openH.length ≤ 1 := by
  have hinv0 : InvC4 (NewLogger fs) := by
    refine ⟨Or.inl rfl, fun _ => ⟨rfl, by simp [NewLogger]⟩, ?_⟩
    show (NewLogger fs).world.openH = sinkHandles (NewLogger fs).lg.wFile
    rfl
  obtain ⟨_, _, h3⟩ := runOps_preserves_InvC4 ops fuel _ c2 hk hinv0 h
  have h4 : c2.world.openH = sinkHandles c2.lg.wFile := h3
  rw [h4]
  rcases c2.lg.wFile with _ | s
  · simp [sinkHandles]
  · cases s <;> simp [sinkHandles]

/-- Witness for the amended C4 at concrete inputs: a one-step run that
only enables the file handler keeps at most one handle open. -/
theorem C4_single_open_handle_amended_witness :
    ({ NewLogger emptyFS with
         lg := SetHandler (NewLogger emptyFS).lg 4 } : Config).world.openH.length ≤ 1 := by
  refine C4_single_open_handle_amended emptyFS [Op.setHandler 4] 1 _ ?_ rfl
  intro hN hmem
  rw [List.mem_singleton] at hmem
  injection hmem with h
  subst h
  decide

end GoLog
